import Mathlib

/-!
UnityGraphicsGLCore_Impl: the OpenGL context host of the Unity emulator.

A shallow embedding of `unityplugin/UnityEmulator/src/UnityGraphicsGLCore_Impl.cpp`.

* The instance (`m_BackBufferWidth`, `m_BackBufferHeight`,
  `m_WindowHandleToDeviceContext`, `m_Context`) is a record passed explicitly.
* The windowing system and the GL driver are a `World`: the rendering contexts
  that are alive, the context current on the calling thread, the swap interval,
  and the trace of every platform, GL and logging call issued so far.
* What the platform answers (client rectangle, device context, pixel format,
  whether a context can be created, loader status, advertised extensions, ...)
  is a `Platform` record; the general theorems quantify over it. The concrete
  hosts on which the code is evaluated are ones a real platform can present:
  on none of them does the loader run without a current context.
* The WGL calls whose result the source discards are deterministic:
  `wglMakeCurrent` binds any live context and releases on a null context,
  `wglDeleteContext` deletes any live context. A new context gets a handle that
  is neither null nor the handle of a live context.
* `LOG_ERROR_AND_THROW` leaves the function at once: the members written before
  the throw keep their new values, which is why `InitGLContext` returns the
  instance and the world next to the error.
* `int` and `LONG` values are integers; the one arithmetic operation, the
  client-rectangle subtraction, wraps to 32 bits.
-/

namespace UnityGraphicsGLCore

set_option linter.unusedVariables false

/-! ## Platform types and constants -/

/-- An opaque platform handle (`HWND`, `HDC`, `HGLRC`); `0` is the null handle. -/
abbrev Handle := Nat

/-- Two's-complement wrap of an integer to a 32-bit `int` / `LONG`. -/
def wrapInt32 (x : Int) : Int := (x + 2147483648) % 4294967296 - 2147483648

/-- The Win32 `RECT` filled by `GetClientRect`. -/
structure RECT where
  left : Int
  top : Int
  right : Int
  bottom : Int
deriving DecidableEq, Repr

/-- The members of the Win32 `PIXELFORMATDESCRIPTOR` that `InitGLContext` writes;
every other member is zero after the `memset`. -/
structure PIXELFORMATDESCRIPTOR where
  nSize : Nat
  nVersion : Nat
  dwFlags : Nat
  iPixelType : Nat
  cColorBits : Nat
  cDepthBits : Nat
  iLayerType : Nat
deriving DecidableEq, Repr

/-- The descriptor after `memset( &pfd, 0, sizeof( PIXELFORMATDESCRIPTOR ) )`. -/
def PIXELFORMATDESCRIPTOR.zeroed : PIXELFORMATDESCRIPTOR :=
  ⟨0, 0, 0, 0, 0, 0, 0⟩

/-- Value of `sizeof( PIXELFORMATDESCRIPTOR )` in the Windows SDK. -/
def sizeof_PIXELFORMATDESCRIPTOR : Nat := 40

-- wingdi.h
def PFD_DOUBLEBUFFER : Nat := 0x00000001
def PFD_DRAW_TO_WINDOW : Nat := 0x00000004
def PFD_SUPPORT_OPENGL : Nat := 0x00000020
def PFD_TYPE_RGBA : Nat := 0
def PFD_MAIN_PLANE : Nat := 0

-- glew.h / wglew.h (values of the Khronos registry)
def GL_NO_ERROR : Nat := 0
def GL_DONT_CARE : Nat := 0x1100
def GL_VERSION : Nat := 0x1F02
def GL_MAJOR_VERSION : Nat := 0x821B
def GL_MINOR_VERSION : Nat := 0x821C
def GL_DEBUG_OUTPUT_SYNCHRONOUS : Nat := 0x8242
def GL_TEXTURE_CUBE_MAP_SEAMLESS : Nat := 0x884F
def GL_FRAMEBUFFER_SRGB : Nat := 0x8DB9
def GL_DEBUG_SOURCE_API : Nat := 0x8246
def GL_DEBUG_TYPE_ERROR : Nat := 0x824C
def GL_DEBUG_TYPE_DEPRECATED_BEHAVIOR : Nat := 0x824D
def GL_DEBUG_TYPE_UNDEFINED_BEHAVIOR : Nat := 0x824E
def GL_DEBUG_TYPE_PORTABILITY : Nat := 0x824F
def GL_DEBUG_TYPE_PERFORMANCE : Nat := 0x8250
def GL_DEBUG_TYPE_OTHER : Nat := 0x8251
def GL_DEBUG_SEVERITY_HIGH : Nat := 0x9146
def GL_DEBUG_SEVERITY_MEDIUM : Nat := 0x9147
def GL_DEBUG_SEVERITY_LOW : Nat := 0x9148
def GL_CONTEXT_PROFILE_MASK : Nat := 0x9126
def GL_CONTEXT_CORE_PROFILE_BIT : Nat := 0x00000001
def WGL_CONTEXT_MAJOR_VERSION_ARB : Nat := 0x2091
def WGL_CONTEXT_MINOR_VERSION_ARB : Nat := 0x2092
def WGL_CONTEXT_FLAGS_ARB : Nat := 0x2094
def WGL_CONTEXT_DEBUG_BIT_ARB : Nat := 0x0001
def WGL_CONTEXT_FORWARD_COMPATIBLE_BIT_ARB : Nat := 0x0002
def GLEW_OK : Nat := 0

/-! ## The world: calls, live contexts, current context -/

/-- One call that leaves the component: a Win32/WGL call, a GL call, or a
logging macro (`LOG_INFO_MESSAGE`, `LOG_ERROR_MESSAGE`; their headers are not
among the sources, so a use is recorded with its message and nothing more).
Context-creation calls carry the handle they returned. -/
inductive Call where
  | GetClientRect (hWnd : Handle)
  | GetDC (hWnd : Handle)
  | ChoosePixelFormat (hdc : Handle) (pfd : PIXELFORMATDESCRIPTOR)
  | SetPixelFormat (hdc : Handle) (format : Int) (pfd : PIXELFORMATDESCRIPTOR)
  | wglCreateContext (hdc : Handle) (ret : Handle)
  | wglMakeCurrent (hdc : Handle) (hglrc : Handle)
  | wglDeleteContext (hglrc : Handle)
  | glewInit
  | wglewIsSupported (name : String)
  | wglCreateContextAttribsARB (hdc : Handle) (hShare : Handle) (attribs : List Int)
      (ret : Handle)
  | wglSwapIntervalEXT (interval : Int)
  | glGetString (name : Nat)
  | glGetIntegerv (pname : Nat)
  | glEnable (cap : Nat)
  | glDebugMessageCallback
  | glDebugMessageControl (source type severity : Nat) (count : Int) (enabled : Bool)
  | glGetError
  | SwapBuffers (hdc : Handle)
  | OutputDebugStringA (text : String)
  | LOG_INFO_MESSAGE (text : String)
  | LOG_ERROR_MESSAGE (text : String)
deriving DecidableEq, Repr

/-- The WGL calls that create, bind or destroy a rendering context. -/
def Call.isContextCall : Call → Bool
  | .wglCreateContext _ _ => true
  | .wglCreateContextAttribsARB _ _ _ _ => true
  | .wglMakeCurrent _ _ => true
  | .wglDeleteContext _ => true
  | _ => false

/-- The swap-interval calls. -/
def Call.isSwapIntervalCall : Call → Bool
  | .wglSwapIntervalEXT _ => true
  | _ => false

/-- The handle a context-creation call returned, when it returned a context. -/
def Call.created? : Call → Option Handle
  | .wglCreateContext _ ret => if ret ≠ 0 then some ret else none
  | .wglCreateContextAttribsARB _ _ _ ret => if ret ≠ 0 then some ret else none
  | _ => none

/-- The contexts created by a sequence of calls, in order of creation. -/
def createdContexts (cs : List Call) : List Handle := cs.filterMap Call.created?

/-- State of the windowing system and GL driver as far as the component can
change it. -/
structure World where
  /-- Rendering contexts created and not yet deleted. -/
  live : List Handle
  /-- The (device context, rendering context) current on the calling thread. -/
  current : Option (Handle × Handle)
  /-- The last swap interval set, with the context it was set on. -/
  swapInterval : Option (Handle × Int)
  /-- Every call issued so far, oldest first. -/
  trace : List Call
deriving DecidableEq, Repr

/-- A world in which nothing has happened yet. -/
def World.empty : World := ⟨[], none, none, []⟩

/-- Append a call to the trace. -/
def World.log (W : World) (c : Call) : World :=
  { W with trace := W.trace ++ [c] }

/-- The calls issued between world `W` and the later world `W2`. -/
def issued (W W2 : World) : List Call := W2.trace.drop W.trace.length

/-- A handle that is neither null nor one of the handles in `live`: the handle
the platform gives the next context it creates. -/
def freshHandle (live : List Handle) : Handle := live.foldr max 0 + 1

/-- What the platform answers. Handles of new contexts are chosen by the world
(`freshHandle`); the platform decides whether creation succeeds. -/
structure Platform where
  GetClientRect : Handle → RECT
  GetDC : Handle → Handle
  ChoosePixelFormat : Handle → PIXELFORMATDESCRIPTOR → Int
  SetPixelFormat : Handle → Int → PIXELFORMATDESCRIPTOR → Bool
  /-- Whether `wglCreateContext` on this device context returns a context. -/
  wglCreateContext : Handle → Bool
  /-- Status returned by `glewInit()`; `GLEW_OK` is success. -/
  glewInit : Nat
  /-- Value of `wglewIsSupported( name )`. -/
  wglewIsSupported : String → Nat
  /-- Whether `wglCreateContextAttribsARB( hdc, share, attribs )` returns a context. -/
  wglCreateContextAttribsARB : Handle → Handle → List Int → Bool
  glGetIntegerv : Nat → Int
  /-- Whether the loader resolved `glDebugMessageCallback` to a non-null pointer. -/
  glDebugMessageCallback : Bool
  /-- Value of the n-th `glGetError()` of `InitGLContext` (n = 0, 1). -/
  glGetError : Nat → Nat
  /-- Whether the build defines `_DEBUG`. -/
  DEBUG_BUILD : Bool

/-- WGL `wglCreateContext`: on success a fresh handle becomes a live context. -/
def wglCreateContext (P : Platform) (W : World) (hdc : Handle) : Handle × World :=
  if P.wglCreateContext hdc then
    (freshHandle W.live,
      { W with live := W.live ++ [freshHandle W.live],
               trace := W.trace ++ [Call.wglCreateContext hdc (freshHandle W.live)] })
  else
    (0, W.log (Call.wglCreateContext hdc 0))

/-- WGL `wglCreateContextAttribsARB`: on success a fresh handle becomes a live
context; the current context is not changed. -/
def wglCreateContextAttribsARB (P : Platform) (W : World) (hdc hShare : Handle)
    (attribs : List Int) : Handle × World :=
  if P.wglCreateContextAttribsARB hdc hShare attribs then
    (freshHandle W.live,
      { W with live := W.live ++ [freshHandle W.live],
               trace := W.trace ++
                 [Call.wglCreateContextAttribsARB hdc hShare attribs (freshHandle W.live)] })
  else
    (0, W.log (Call.wglCreateContextAttribsARB hdc hShare attribs 0))

/-- WGL `wglMakeCurrent`: a null context releases the current one (the device
context is then ignored); a live context becomes current on `hdc`; any other
handle is refused and changes nothing. The source discards the result. -/
def wglMakeCurrent (W : World) (hdc hglrc : Handle) : World :=
  if hglrc = 0 then
    { W with current := none, trace := W.trace ++ [Call.wglMakeCurrent hdc hglrc] }
  else if hglrc ∈ W.live then
    { W with current := some (hdc, hglrc),
             trace := W.trace ++ [Call.wglMakeCurrent hdc hglrc] }
  else
    W.log (Call.wglMakeCurrent hdc hglrc)

/-- WGL `wglDeleteContext`: a live context stops being alive (and stops being
current if it was); the null handle and any other handle are refused and change
nothing. -/
def wglDeleteContext (W : World) (hglrc : Handle) : World :=
  if hglrc ≠ 0 ∧ hglrc ∈ W.live then
    { W with live := W.live.filter (fun h => h ≠ hglrc),
             current := match W.current with
               | some (d, c) => if c = hglrc then none else some (d, c)
               | none => none,
             trace := W.trace ++ [Call.wglDeleteContext hglrc] }
  else
    W.log (Call.wglDeleteContext hglrc)

/-- WGL `wglSwapIntervalEXT`: sets the swap interval of the current context;
without a current context the call has no effect. -/
def wglSwapIntervalEXT (W : World) (interval : Int) : World :=
  match W.current with
  | some (_, c) =>
    { W with swapInterval := some (c, interval),
             trace := W.trace ++ [Call.wglSwapIntervalEXT interval] }
  | none => W.log (Call.wglSwapIntervalEXT interval)

/-! ## The component -/

/-- Modelled from the spec: the class declaration `UnityGraphicsGLCore_Impl.h` is
not among the sources. The members are the four the source file reads and
writes, typed as in spec 3: backbuffer width and height (`int`), the
device-context handle and the rendering context (opaque handles). -/
structure Instance where
  m_BackBufferWidth : Int
  m_BackBufferHeight : Int
  m_WindowHandleToDeviceContext : Handle
  m_Context : Handle
deriving DecidableEq, Repr

/-- An instance on which `InitGLContext` has not stored a rendering context. -/
def Instance.PreInit (self : Instance) : Prop := self.m_Context = 0

instance (self : Instance) : Decidable self.PreInit := by
  unfold Instance.PreInit; infer_instance

/-- Lines 9-60: `openglCallbackFunction`. `MessageSS` is the string built so
far, `<<` appends, `std::endl` appends a newline. Returns the world after
`OutputDebugStringA`. -/
def openglCallbackFunction (W : World) (source type id severity : Nat) (length : Int)
    (message : String) (userParam : Handle) : World :=
  let MessageSS := ""
  let MessageSS := MessageSS ++ "\n" ++ "OPENGL DEBUG MESSAGE: " ++ message ++ "\n"
  let MessageSS := MessageSS ++ "Type: "
  let MessageSS :=
    if type = GL_DEBUG_TYPE_ERROR then MessageSS ++ "ERROR"
    else if type = GL_DEBUG_TYPE_DEPRECATED_BEHAVIOR then MessageSS ++ "DEPRECATED_BEHAVIOR"
    else if type = GL_DEBUG_TYPE_UNDEFINED_BEHAVIOR then MessageSS ++ "UNDEFINED_BEHAVIOR"
    else if type = GL_DEBUG_TYPE_PORTABILITY then MessageSS ++ "PORTABILITY"
    else if type = GL_DEBUG_TYPE_PERFORMANCE then MessageSS ++ "PERFORMANCE"
    else if type = GL_DEBUG_TYPE_OTHER then MessageSS ++ "OTHER"
    else MessageSS
  let MessageSS := MessageSS ++ "\n"
  let MessageSS := MessageSS ++ "Severity: "
  let MessageSS :=
    if severity = GL_DEBUG_SEVERITY_LOW then MessageSS ++ "LOW"
    else if severity = GL_DEBUG_SEVERITY_MEDIUM then MessageSS ++ "MEDIUM"
    else if severity = GL_DEBUG_SEVERITY_HIGH then MessageSS ++ "HIGH"
    else MessageSS
  let MessageSS := MessageSS ++ "\n"
  W.log (Call.OutputDebugStringA MessageSS)

/-- Lines 63-70: the destructor. Members are not modified. -/
def destructor (self : Instance) (W : World) : World :=
  if self.m_Context ≠ 0 then
    let W := wglMakeCurrent W self.m_WindowHandleToDeviceContext 0
    wglDeleteContext W self.m_Context
  else
    W

/-- Outcome of `InitGLContext`: the message of the exception thrown by
`LOG_ERROR_AND_THROW` (or `none` on normal return), and the instance and the
world as the call left them. -/
structure InitResult where
  error : Option String
  self : Instance
  world : World
deriving DecidableEq, Repr

/-- Modelled from the spec: the macro `LOG_ERROR_AND_THROW` of `Errors.h`, which
is not among the sources. Spec 7: init errors are fatal and "surfaced to the
caller with a descriptive message": the message is logged and an exception
carrying it leaves the function. -/
def LOG_ERROR_AND_THROW (msg : String) (self : Instance) (W : World) : InitResult :=
  ⟨some msg, self, W.log (Call.LOG_ERROR_MESSAGE msg)⟩

/-- Lines 115-126: the attribute list passed to `wglCreateContextAttribsARB`. -/
def contextAttribs (P : Platform) (MajorVersion MinorVersion : Int) : List Int :=
  let flags : Nat := WGL_CONTEXT_FORWARD_COMPATIBLE_BIT_ARB
  let flags : Nat := if P.DEBUG_BUILD then flags ||| WGL_CONTEXT_DEBUG_BIT_ARB else flags
  [ (WGL_CONTEXT_MAJOR_VERSION_ARB : Int), MajorVersion,
    (WGL_CONTEXT_MINOR_VERSION_ARB : Int), MinorVersion,
    (WGL_CONTEXT_FLAGS_ARB : Int), (flags : Int),
    (GL_CONTEXT_PROFILE_MASK : Int), (GL_CONTEXT_CORE_PROFILE_BIT : Int),
    0, 0 ]

/-- Lines 82-90: the pixel format descriptor requested by `InitGLContext`. -/
def requestedPixelFormat : PIXELFORMATDESCRIPTOR :=
  let pfd := PIXELFORMATDESCRIPTOR.zeroed
  let pfd := { pfd with nSize := sizeof_PIXELFORMATDESCRIPTOR }
  let pfd := { pfd with nVersion := 1 }
  let pfd := { pfd with dwFlags := PFD_DOUBLEBUFFER ||| PFD_SUPPORT_OPENGL ||| PFD_DRAW_TO_WINDOW }
  let pfd := { pfd with iPixelType := PFD_TYPE_RGBA }
  let pfd := { pfd with cColorBits := 32 }
  let pfd := { pfd with cDepthBits := 32 }
  let pfd := { pfd with iLayerType := PFD_MAIN_PLANE }
  pfd

/-- Lines 147-174: the end of `InitGLContext` (version query, debug callback,
seamless cubemaps, sRGB framebuffers). Only GL and logging calls; nothing here
throws. -/
def queryVersionAndEnableFeatures (P : Platform) (W : World) : World :=
  let W := W.log (Call.glGetString GL_VERSION)
  let MajorVersion := P.glGetIntegerv GL_MAJOR_VERSION
  let W := W.log (Call.glGetIntegerv GL_MAJOR_VERSION)
  let MinorVersion := P.glGetIntegerv GL_MINOR_VERSION
  let W := W.log (Call.glGetIntegerv GL_MINOR_VERSION)
  let W := W.log (Call.LOG_INFO_MESSAGE
    ("Initialized OpenGL " ++ toString MajorVersion ++ "." ++ toString MinorVersion ++ " context"))
  let W :=
    if P.glDebugMessageCallback then
      let W := W.log (Call.glEnable GL_DEBUG_OUTPUT_SYNCHRONOUS)
      let W := W.log Call.glDebugMessageCallback
      W.log (Call.glDebugMessageControl GL_DONT_CARE GL_DONT_CARE GL_DONT_CARE 0 true)
    else W
  let W := W.log (Call.glEnable GL_TEXTURE_CUBE_MAP_SEAMLESS)
  let err := P.glGetError 0
  let W := W.log Call.glGetError
  let W :=
    if err ≠ GL_NO_ERROR then
      W.log (Call.LOG_ERROR_MESSAGE "Failed to enable seamless cubemap filtering")
    else W
  let W := W.log (Call.glEnable GL_FRAMEBUFFER_SRGB)
  let err := P.glGetError 1
  let W := W.log Call.glGetError
  let W :=
    if err ≠ GL_NO_ERROR then
      W.log (Call.LOG_ERROR_MESSAGE "Failed to enable SRGB framebuffers")
    else W
  W

/-- Lines 72-175: `InitGLContext`. -/
def InitGLContext (P : Platform) (self : Instance) (W : World)
    (pNativeWndHandle : Handle) (MajorVersion MinorVersion : Int) : InitResult :=
  let hWnd := pNativeWndHandle
  let rc := P.GetClientRect hWnd
  let W := W.log (Call.GetClientRect hWnd)
  let self := { self with m_BackBufferWidth := wrapInt32 (rc.right - rc.left) }
  let self := { self with m_BackBufferHeight := wrapInt32 (rc.bottom - rc.top) }
  let pfd := requestedPixelFormat
  let self := { self with m_WindowHandleToDeviceContext := P.GetDC hWnd }
  let W := W.log (Call.GetDC hWnd)
  let nPixelFormat := P.ChoosePixelFormat self.m_WindowHandleToDeviceContext pfd
  let W := W.log (Call.ChoosePixelFormat self.m_WindowHandleToDeviceContext pfd)
  if nPixelFormat = 0 then
    LOG_ERROR_AND_THROW "Invalid Pixel Format" self W
  else
    let bResult := P.SetPixelFormat self.m_WindowHandleToDeviceContext nPixelFormat pfd
    let W := W.log (Call.SetPixelFormat self.m_WindowHandleToDeviceContext nPixelFormat pfd)
    if !bResult then
      LOG_ERROR_AND_THROW "Failed to set Pixel Format" self W
    else
      let (tempContext, W) := wglCreateContext P W self.m_WindowHandleToDeviceContext
      let W := wglMakeCurrent W self.m_WindowHandleToDeviceContext tempContext
      let err := P.glewInit
      let W := W.log Call.glewInit
      if GLEW_OK ≠ err then
        LOG_ERROR_AND_THROW "Failed to initialize GLEW" self W
      else
        let supported := P.wglewIsSupported "WGL_ARB_create_context"
        let W := W.log (Call.wglewIsSupported "WGL_ARB_create_context")
        if supported = 1 then
          let attribs := contextAttribs P MajorVersion MinorVersion
          let (ctx, W) :=
            wglCreateContextAttribsARB P W self.m_WindowHandleToDeviceContext 0 attribs
          let self := { self with m_Context := ctx }
          let W := wglMakeCurrent W 0 0
          let W := wglDeleteContext W tempContext
          let W := wglMakeCurrent W self.m_WindowHandleToDeviceContext self.m_Context
          let W := wglSwapIntervalEXT W 0
          ⟨none, self, queryVersionAndEnableFeatures P W⟩
        else
          let self := { self with m_Context := tempContext }
          ⟨none, self, queryVersionAndEnableFeatures P W⟩

/-- Lines 177-182: `ResizeSwapchain`. -/
def ResizeSwapchain (self : Instance) (W : World) (NewWidth NewHeight : Int) :
    Instance × World :=
  let self := { self with m_BackBufferWidth := NewWidth }
  let self := { self with m_BackBufferHeight := NewHeight }
  (self, W)

/-- Lines 184-187: `SwapBuffers`. -/
def SwapBuffers (self : Instance) (W : World) : World :=
  W.log (Call.SwapBuffers self.m_WindowHandleToDeviceContext)

/-- The calls issued by lines 147-174 of `InitGLContext`. -/
def featureCalls (P : Platform) : List Call :=
  (queryVersionAndEnableFeatures P World.empty).trace

/-! ## The debug record as the specification words it -/

/-- Spec 4.4: the `Type` labels of the six defined debug type codes. -/
def typeLabelTable : List (Nat × String) :=
  [ (GL_DEBUG_TYPE_ERROR, "ERROR"),
    (GL_DEBUG_TYPE_DEPRECATED_BEHAVIOR, "DEPRECATED_BEHAVIOR"),
    (GL_DEBUG_TYPE_UNDEFINED_BEHAVIOR, "UNDEFINED_BEHAVIOR"),
    (GL_DEBUG_TYPE_PORTABILITY, "PORTABILITY"),
    (GL_DEBUG_TYPE_PERFORMANCE, "PERFORMANCE"),
    (GL_DEBUG_TYPE_OTHER, "OTHER") ]

/-- Spec 4.4: the `Severity` labels of the three defined severity codes. -/
def severityLabelTable : List (Nat × String) :=
  [ (GL_DEBUG_SEVERITY_LOW, "LOW"),
    (GL_DEBUG_SEVERITY_MEDIUM, "MEDIUM"),
    (GL_DEBUG_SEVERITY_HIGH, "HIGH") ]

/-- Spec 4.4: the label of a type code; unrecognized codes yield no label. -/
def typeLabel (t : Nat) : String := (typeLabelTable.lookup t).getD ""

/-- Spec 4.4: the label of a severity code; unrecognized codes yield no label. -/
def sevLabel (s : Nat) : String := (severityLabelTable.lookup s).getD ""

/-- The record the specification expects for message `m`, type `t`, severity `s`. -/
def debugRecord (m : String) (t s : Nat) : String :=
  "\nOPENGL DEBUG MESSAGE: " ++ m ++ "\nType: " ++ typeLabel t ++ "\nSeverity: " ++ sevLabel s
    ++ "\n"

/-! ## Concrete hosts on which the code is evaluated -/

/-- A host with an 800x600 window that offers pixel format 7, creates legacy
contexts, advertises `WGL_ARB_create_context` and creates attributed contexts
for requested major versions up to 4. -/
def coreProfileHost : Platform where
  GetClientRect := fun _ => ⟨0, 0, 800, 600⟩
  GetDC := fun hWnd => hWnd + 100
  ChoosePixelFormat := fun _ _ => 7
  SetPixelFormat := fun _ _ _ => true
  wglCreateContext := fun _ => true
  glewInit := GLEW_OK
  wglewIsSupported := fun _ => 1
  wglCreateContextAttribsARB := fun _ _ attribs => decide (attribs.getD 1 0 ≤ 4)
  glGetIntegerv := fun pname => if pname = GL_MAJOR_VERSION then 4 else 5
  glDebugMessageCallback := true
  glGetError := fun _ => GL_NO_ERROR
  DEBUG_BUILD := false

/-- The same host without the `WGL_ARB_create_context` extension. -/
def legacyOnlyHost : Platform :=
  { coreProfileHost with wglewIsSupported := fun _ => 0, glGetIntegerv := fun _ => 2 }

/-- The same host, but no pixel format matches the descriptor. -/
def noPixelFormatHost : Platform :=
  { coreProfileHost with ChoosePixelFormat := fun _ _ => 0 }

/-- A freshly constructed instance: no rendering context yet. -/
def freshInstance : Instance := ⟨0, 0, 0, 0⟩

/-- An initialized instance holding context 5 on device context 101. -/
def liveInstance : Instance := ⟨800, 600, 101, 5⟩

/-- A world in which context 5 is alive and current on device context 101. -/
def liveWorld : World := ⟨[5], some (101, 5), none, []⟩

/-! ## Auxiliary facts -/

theorem foldr_max_ge (l : List Nat) (h : Nat) (hm : h ∈ l) : h ≤ l.foldr max 0 := by
  induction l with
  | nil => cases hm
  | cons a l ih =>
    rcases List.mem_cons.mp hm with rfl | hm
    · exact le_max_left _ _
    · exact le_trans (ih hm) (le_max_right _ _)

theorem lt_freshHandle (l : List Handle) (h : Handle) (hm : h ∈ l) : h < freshHandle l :=
  Nat.lt_succ_of_le (foldr_max_ge l h hm)

theorem freshHandle_ne_zero (l : List Handle) : freshHandle l ≠ 0 := Nat.succ_ne_zero _

theorem freshHandle_not_mem (l : List Handle) : freshHandle l ∉ l :=
  fun hm => lt_irrefl _ (lt_freshHandle l _ hm)

theorem freshHandle_ne_last (l : List Handle) (a : Handle) : freshHandle (l ++ [a]) ≠ a :=
  fun h => freshHandle_not_mem (l ++ [a]) (by rw [h]; simp)

theorem last_ne_freshHandle (l : List Handle) (a : Handle) : a ≠ freshHandle (l ++ [a]) :=
  fun h => freshHandle_ne_last l a h.symm

theorem freshHandle_append_not_mem (l : List Handle) (a : Handle) :
    freshHandle (l ++ [a]) ∉ l :=
  fun hm => freshHandle_not_mem (l ++ [a]) (List.mem_append_left _ hm)

theorem query_live (P : Platform) (W : World) :
    (queryVersionAndEnableFeatures P W).live = W.live := by
  simp only [queryVersionAndEnableFeatures, World.log]
  split_ifs <;> simp only

theorem query_current (P : Platform) (W : World) :
    (queryVersionAndEnableFeatures P W).current = W.current := by
  simp only [queryVersionAndEnableFeatures, World.log]
  split_ifs <;> simp only

theorem query_swapInterval (P : Platform) (W : World) :
    (queryVersionAndEnableFeatures P W).swapInterval = W.swapInterval := by
  simp only [queryVersionAndEnableFeatures, World.log]
  split_ifs <;> simp only

theorem query_trace (P : Platform) (W : World) :
    (queryVersionAndEnableFeatures P W).trace = W.trace ++ featureCalls P := by
  simp only [featureCalls, queryVersionAndEnableFeatures]
  split_ifs <;> simp [World.log, World.empty]

theorem featureCalls_no_context (P : Platform) :
    (featureCalls P).filter Call.isContextCall = [] := by
  simp only [featureCalls, queryVersionAndEnableFeatures]
  split_ifs <;> simp [World.log, World.empty, Call.isContextCall]

theorem featureCalls_no_swap (P : Platform) :
    (featureCalls P).filter Call.isSwapIntervalCall = [] := by
  simp only [featureCalls, queryVersionAndEnableFeatures]
  split_ifs <;> simp [World.log, World.empty, Call.isSwapIntervalCall]

theorem featureCalls_created (P : Platform) :
    (featureCalls P).filterMap Call.created? = [] := by
  simp only [featureCalls, queryVersionAndEnableFeatures]
  split_ifs <;> simp [World.log, World.empty, Call.created?]

theorem str_nil_append (s : String) : "" ++ s = s := by
  apply String.ext; simp

theorem str_append_nil (s : String) : s ++ "" = s := by
  apply String.ext; simp

theorem lookup_cons_if (t k : Nat) (v : String) (es : List (Nat × String)) :
    List.lookup t ((k, v) :: es) = if t = k then some v else List.lookup t es := by
  rw [List.lookup_cons]
  by_cases h : t = k
  · simp [h]
  · have hb : (t == k) = false := beq_eq_false_iff_ne.mpr h
    simp [h, hb]

theorem typeLabel_eq (t : Nat) : typeLabel t =
    if t = GL_DEBUG_TYPE_ERROR then "ERROR"
    else if t = GL_DEBUG_TYPE_DEPRECATED_BEHAVIOR then "DEPRECATED_BEHAVIOR"
    else if t = GL_DEBUG_TYPE_UNDEFINED_BEHAVIOR then "UNDEFINED_BEHAVIOR"
    else if t = GL_DEBUG_TYPE_PORTABILITY then "PORTABILITY"
    else if t = GL_DEBUG_TYPE_PERFORMANCE then "PERFORMANCE"
    else if t = GL_DEBUG_TYPE_OTHER then "OTHER"
    else "" := by
  simp only [typeLabel, typeLabelTable, lookup_cons_if, List.lookup_nil]
  split_ifs <;> rfl

theorem sevLabel_eq (t : Nat) : sevLabel t =
    if t = GL_DEBUG_SEVERITY_LOW then "LOW"
    else if t = GL_DEBUG_SEVERITY_MEDIUM then "MEDIUM"
    else if t = GL_DEBUG_SEVERITY_HIGH then "HIGH"
    else "" := by
  simp only [sevLabel, severityLabelTable, lookup_cons_if, List.lookup_nil]
  split_ifs <;> rfl

theorem str_newline_message : ("\n" ++ "OPENGL DEBUG MESSAGE: " : String)
    = "\nOPENGL DEBUG MESSAGE: " := by decide

theorem str_newline_type : ("\n" ++ "Type: " : String) = "\nType: " := by decide

theorem str_newline_severity : ("\n" ++ "Severity: " : String) = "\nSeverity: " := by decide

theorem typeLabel_append (s : String) (t : Nat) :
    (if t = GL_DEBUG_TYPE_ERROR then s ++ "ERROR"
    else if t = GL_DEBUG_TYPE_DEPRECATED_BEHAVIOR then s ++ "DEPRECATED_BEHAVIOR"
    else if t = GL_DEBUG_TYPE_UNDEFINED_BEHAVIOR then s ++ "UNDEFINED_BEHAVIOR"
    else if t = GL_DEBUG_TYPE_PORTABILITY then s ++ "PORTABILITY"
    else if t = GL_DEBUG_TYPE_PERFORMANCE then s ++ "PERFORMANCE"
    else if t = GL_DEBUG_TYPE_OTHER then s ++ "OTHER"
    else s) = s ++ typeLabel t := by
  rw [typeLabel_eq]
  split_ifs <;> first | rfl | exact (str_append_nil s).symm

theorem sevLabel_append (s : String) (t : Nat) :
    (if t = GL_DEBUG_SEVERITY_LOW then s ++ "LOW"
    else if t = GL_DEBUG_SEVERITY_MEDIUM then s ++ "MEDIUM"
    else if t = GL_DEBUG_SEVERITY_HIGH then s ++ "HIGH"
    else s) = s ++ sevLabel t := by
  rw [sevLabel_eq]
  split_ifs <;> first | rfl | exact (str_append_nil s).symm

theorem callback_eq_record (W : World) (source type id severity : Nat) (length : Int)
    (message : String) (userParam : Handle) :
    openglCallbackFunction W source type id severity length message userParam
      = W.log (Call.OutputDebugStringA (debugRecord message type severity)) := by
  simp only [openglCallbackFunction, typeLabel_append, sevLabel_append, debugRecord]
  simp only [str_nil_append, String.append_assoc, ← str_newline_message, ← str_newline_type,
    ← str_newline_severity]

/-! ## The claims -/

/-- C1: for every message text and every numeric type and severity code (and any
source, id, length and user pointer) `openglCallbackFunction` emits exactly one
record, equal to "\nOPENGL DEBUG MESSAGE: " ++ m ++ "\nType: " ++ typeLabel t ++
"\nSeverity: " ++ sevLabel s ++ "\n", and touches nothing else; `typeLabel` maps
the six defined type codes to their labels and every other code to the empty
string, `sevLabel` the three defined severity codes to LOW, MEDIUM, HIGH and
every other code to the empty string. The last conjunct is scenario S5
(source API, type ERROR, severity HIGH, text "X"). -/
theorem C1_debug_sink_record :
    (∀ (W : World) (source type id severity : Nat) (length : Int) (message : String)
        (userParam : Handle),
      issued W (openglCallbackFunction W source type id severity length message userParam)
        = [Call.OutputDebugStringA
            ("\nOPENGL DEBUG MESSAGE: " ++ message ++ "\nType: " ++ typeLabel type
              ++ "\nSeverity: " ++ sevLabel severity ++ "\n")] ∧
      (openglCallbackFunction W source type id severity length message userParam).live
        = W.live ∧
      (openglCallbackFunction W source type id severity length message userParam).current
        = W.current ∧
      (openglCallbackFunction W source type id severity length message userParam).swapInterval
        = W.swapInterval) ∧
    typeLabel GL_DEBUG_TYPE_ERROR = "ERROR" ∧
    typeLabel GL_DEBUG_TYPE_DEPRECATED_BEHAVIOR = "DEPRECATED_BEHAVIOR" ∧
    typeLabel GL_DEBUG_TYPE_UNDEFINED_BEHAVIOR = "UNDEFINED_BEHAVIOR" ∧
    typeLabel GL_DEBUG_TYPE_PORTABILITY = "PORTABILITY" ∧
    typeLabel GL_DEBUG_TYPE_PERFORMANCE = "PERFORMANCE" ∧
    typeLabel GL_DEBUG_TYPE_OTHER = "OTHER" ∧
    (∀ t : Nat,
      t ∈ [GL_DEBUG_TYPE_ERROR, GL_DEBUG_TYPE_DEPRECATED_BEHAVIOR,
           GL_DEBUG_TYPE_UNDEFINED_BEHAVIOR, GL_DEBUG_TYPE_PORTABILITY,
           GL_DEBUG_TYPE_PERFORMANCE, GL_DEBUG_TYPE_OTHER] ∨ typeLabel t = "") ∧
    sevLabel GL_DEBUG_SEVERITY_LOW = "LOW" ∧
    sevLabel GL_DEBUG_SEVERITY_MEDIUM = "MEDIUM" ∧
    sevLabel GL_DEBUG_SEVERITY_HIGH = "HIGH" ∧
    (∀ s : Nat,
      s ∈ [GL_DEBUG_SEVERITY_LOW, GL_DEBUG_SEVERITY_MEDIUM, GL_DEBUG_SEVERITY_HIGH] ∨
        sevLabel s = "") ∧
    issued World.empty
        (openglCallbackFunction World.empty GL_DEBUG_SOURCE_API GL_DEBUG_TYPE_ERROR 0
          GL_DEBUG_SEVERITY_HIGH 1 "X" 0)
      = [Call.OutputDebugStringA
          ("\n" ++ "OPENGL DEBUG MESSAGE: X" ++ "\n" ++ "Type: ERROR" ++ "\n"
            ++ "Severity: HIGH" ++ "\n")] := by
  refine ⟨?_, by decide, by decide, by decide, by decide, by decide, by decide, ?_,
    by decide, by decide, by decide, ?_, by decide⟩
  · intro W source type id severity length message userParam
    rw [callback_eq_record]
    simp [issued, World.log, debugRecord]
  · intro t
    rw [typeLabel_eq]
    by_cases h1 : t = GL_DEBUG_TYPE_ERROR
    · simp [h1]
    by_cases h2 : t = GL_DEBUG_TYPE_DEPRECATED_BEHAVIOR
    · simp [h2]
    by_cases h3 : t = GL_DEBUG_TYPE_UNDEFINED_BEHAVIOR
    · simp [h3]
    by_cases h4 : t = GL_DEBUG_TYPE_PORTABILITY
    · simp [h4]
    by_cases h5 : t = GL_DEBUG_TYPE_PERFORMANCE
    · simp [h5]
    by_cases h6 : t = GL_DEBUG_TYPE_OTHER
    · simp [h6]
    · right; simp [h1, h2, h3, h4, h5, h6]
  · intro s
    rw [sevLabel_eq]
    by_cases h1 : s = GL_DEBUG_SEVERITY_LOW
    · simp [h1]
    by_cases h2 : s = GL_DEBUG_SEVERITY_MEDIUM
    · simp [h2]
    by_cases h3 : s = GL_DEBUG_SEVERITY_HIGH
    · simp [h3]
    · right; simp [h1, h2, h3]

/-- C2: after `ResizeSwapchain(w, h)` the stored backbuffer width and height are
`w` and `h`, the device-context handle and the rendering context are unchanged,
and the world is untouched (no call is issued). The last conjunct is scenario
S4: after an 800x600 init, `ResizeSwapchain(1920, 1080)` gives 1920x1080. -/
theorem C2_resize_is_pure_metadata :
    (∀ (self : Instance) (W : World) (w h : Int),
      (ResizeSwapchain self W w h).1.m_BackBufferWidth = w ∧
      (ResizeSwapchain self W w h).1.m_BackBufferHeight = h ∧
      (ResizeSwapchain self W w h).1.m_WindowHandleToDeviceContext
        = self.m_WindowHandleToDeviceContext ∧
      (ResizeSwapchain self W w h).1.m_Context = self.m_Context ∧
      (ResizeSwapchain self W w h).2 = W ∧
      issued W (ResizeSwapchain self W w h).2 = []) ∧
    ((InitGLContext coreProfileHost freshInstance World.empty 1 4 3).self.m_BackBufferWidth = 800 ∧
     (InitGLContext coreProfileHost freshInstance World.empty 1 4 3).self.m_BackBufferHeight = 600 ∧
     (ResizeSwapchain (InitGLContext coreProfileHost freshInstance World.empty 1 4 3).self
        (InitGLContext coreProfileHost freshInstance World.empty 1 4 3).world 1920 1080).1
       = ⟨1920, 1080, 101, 2⟩) := by
  refine ⟨?_, by decide⟩
  intro self W w h
  simp [ResizeSwapchain, issued]

/-- C3, as stated, fails: on a host whose pixel-format selection returns 0,
`InitGLContext` raises on a pre-init instance, yet the backbuffer width and
height and the device-context handle no longer have their values from before
the call (0, 0, 0): they are 800, 600 and 101. -/
theorem C3_counterexample_members_not_restored :
    freshInstance.PreInit ∧
    (InitGLContext noPixelFormatHost freshInstance World.empty 1 4 3).error
      = some "Invalid Pixel Format" ∧
    freshInstance.m_BackBufferWidth = 0 ∧
    (InitGLContext noPixelFormatHost freshInstance World.empty 1 4 3).self.m_BackBufferWidth
      = 800 ∧
    freshInstance.m_BackBufferHeight = 0 ∧
    (InitGLContext noPixelFormatHost freshInstance World.empty 1 4 3).self.m_BackBufferHeight
      = 600 ∧
    freshInstance.m_WindowHandleToDeviceContext = 0 ∧
    (InitGLContext noPixelFormatHost freshInstance World.empty
      1 4 3).self.m_WindowHandleToDeviceContext = 101 := by
  decide

/-- C3, amended: if `InitGLContext` raises on a pre-init instance, the rendering
context is still null and the destructor then issues no call at all; the
backbuffer width and height hold the client-rectangle size and the
device-context handle holds what `GetDC` returned (they are not restored); the
error is one of the three messages of the source; and when it is one of the two
pixel-format errors no context call was issued, so no context was created, made
current or left alive by the call. -/
theorem C3_init_failure_state (P : Platform) (self : Instance) (W : World) (hWnd : Handle)
    (MajorVersion MinorVersion : Int) (hpre : self.PreInit)
    (herr : (InitGLContext P self W hWnd MajorVersion MinorVersion).error ≠ none) :
    let r := InitGLContext P self W hWnd MajorVersion MinorVersion
    r.self.m_Context = 0 ∧
    r.self.m_BackBufferWidth
      = wrapInt32 ((P.GetClientRect hWnd).right - (P.GetClientRect hWnd).left) ∧
    r.self.m_BackBufferHeight
      = wrapInt32 ((P.GetClientRect hWnd).bottom - (P.GetClientRect hWnd).top) ∧
    r.self.m_WindowHandleToDeviceContext = P.GetDC hWnd ∧
    destructor r.self r.world = r.world ∧
    (r.error = some "Invalid Pixel Format" ∨ r.error = some "Failed to set Pixel Format" ∨
      r.error = some "Failed to initialize GLEW") ∧
    (r.error ≠ some "Failed to initialize GLEW" →
      r.world.live = W.live ∧ r.world.current = W.current ∧
      (issued W r.world).filter Call.isContextCall = []) := by
  intro r
  unfold Instance.PreInit at hpre
  simp only [r, InitGLContext] at herr ⊢
  split_ifs at herr ⊢ with h1 h2 h3 h4
  · simp [LOG_ERROR_AND_THROW, destructor, hpre, World.log, issued, Call.isContextCall]
  · simp [LOG_ERROR_AND_THROW, destructor, hpre, World.log, issued, Call.isContextCall]
  · simp [LOG_ERROR_AND_THROW, destructor, hpre, World.log, issued, Call.isContextCall]
  · simp at herr
  · simp at herr

/-- C3, amended, at a concrete input: the host without a matching pixel format. -/
theorem C3_init_failure_state_witness :
    (InitGLContext noPixelFormatHost freshInstance World.empty 1 4 3).self.m_Context = 0 ∧
    destructor (InitGLContext noPixelFormatHost freshInstance World.empty 1 4 3).self
        (InitGLContext noPixelFormatHost freshInstance World.empty 1 4 3).world
      = (InitGLContext noPixelFormatHost freshInstance World.empty 1 4 3).world :=
  have h := C3_init_failure_state noPixelFormatHost freshInstance World.empty 1 4 3
    (by decide) (by decide)
  ⟨h.1, h.2.2.2.2.1⟩

/-- C4, evaluated where the code departs from it: the host advertises
`WGL_ARB_create_context` but creates no context for the requested version 9.9.
`InitGLContext` returns normally; the legacy context (handle 1) was created and
made current, then unbound and deleted; the stored rendering context is null,
no context is alive and none is current. -/
theorem C4_target_failure_discards_legacy_context :
    (InitGLContext coreProfileHost freshInstance World.empty 1 9 9).error = none ∧
    (issued World.empty
        (InitGLContext coreProfileHost freshInstance World.empty 1 9 9).world).filter
        Call.isContextCall
      = [Call.wglCreateContext 101 1,
         Call.wglMakeCurrent 101 1,
         Call.wglCreateContextAttribsARB 101 0 [0x2091, 9, 0x2092, 9, 0x2094, 2, 0x9126, 1, 0, 0] 0,
         Call.wglMakeCurrent 0 0,
         Call.wglDeleteContext 1,
         Call.wglMakeCurrent 101 0] ∧
    (InitGLContext coreProfileHost freshInstance World.empty 1 9 9).self.m_Context = 0 ∧
    (InitGLContext coreProfileHost freshInstance World.empty 1 9 9).world.live = [] ∧
    (InitGLContext coreProfileHost freshInstance World.empty 1 9 9).world.current = none := by
  decide

/-- C5: when pixel-format selection, pixel-format binding and loader
initialisation succeed and `WGL_ARB_create_context` is not advertised, then for
any requested version `InitGLContext` returns normally; the only context calls it
issues are `wglCreateContext` on the device-context handle and the make-current
of the handle that call returned (no attributed creation, no unbinding, no
deletion); the stored rendering context is that handle; and, the legacy context
having been created, it is non-null, alive and current on the device-context
handle. -/
theorem C5_legacy_context_without_extension (P : Platform) (self : Instance) (W : World)
    (hWnd : Handle) (MajorVersion MinorVersion : Int)
    (hfmt : P.ChoosePixelFormat (P.GetDC hWnd) requestedPixelFormat ≠ 0)
    (hset : P.SetPixelFormat (P.GetDC hWnd)
      (P.ChoosePixelFormat (P.GetDC hWnd) requestedPixelFormat) requestedPixelFormat = true)
    (hglew : P.glewInit = GLEW_OK)
    (hext : P.wglewIsSupported "WGL_ARB_create_context" ≠ 1) :
    let r := InitGLContext P self W hWnd MajorVersion MinorVersion
    r.error = none ∧
    r.self.m_WindowHandleToDeviceContext = P.GetDC hWnd ∧
    (issued W r.world).filter Call.isContextCall
      = [Call.wglCreateContext (P.GetDC hWnd) r.self.m_Context,
         Call.wglMakeCurrent (P.GetDC hWnd) r.self.m_Context] ∧
    (P.wglCreateContext (P.GetDC hWnd) = true →
      r.self.m_Context ≠ 0 ∧ r.world.live = W.live ++ [r.self.m_Context] ∧
      r.world.current = some (P.GetDC hWnd, r.self.m_Context)) := by
  intro r
  simp only [r, InitGLContext, if_neg hfmt, hset, hglew, if_neg hext]
  cases hL : P.wglCreateContext (P.GetDC hWnd) <;>
    simp [wglCreateContext, hL, wglMakeCurrent, World.log, issued, query_live, query_current,
      query_trace, Call.isContextCall, featureCalls_no_context, freshHandle_ne_zero]

/-- C5 at a concrete input (scenario S2): version 4.3 requested on the host
lacking the extension; the legacy context, handle 1, is the rendering context
and is current on device context 101. -/
theorem C5_legacy_context_without_extension_witness :
    (InitGLContext legacyOnlyHost freshInstance World.empty 1 4 3).error = none ∧
    (InitGLContext legacyOnlyHost freshInstance World.empty 1 4 3).self.m_Context = 1 ∧
    (InitGLContext legacyOnlyHost freshInstance World.empty 1 4 3).world.current
      = some (101, (InitGLContext legacyOnlyHost freshInstance World.empty 1 4 3).self.m_Context) :=
  have h := C5_legacy_context_without_extension legacyOnlyHost freshInstance World.empty 1 4 3
    (by decide) (by decide) (by decide) (by decide)
  ⟨h.1, by decide, (h.2.2.2 (by decide)).2.2⟩

/-- C6, as stated, fails on the legacy-fallback path: on the host lacking the
extension `InitGLContext` returns normally, issues no swap-interval call, and the
swap interval has not been set. -/
theorem C6_counterexample_legacy_path_sets_no_swap_interval :
    (InitGLContext legacyOnlyHost freshInstance World.empty 1 4 3).error = none ∧
    (issued World.empty
        (InitGLContext legacyOnlyHost freshInstance World.empty 1 4 3).world).filter
        Call.isSwapIntervalCall = [] ∧
    (InitGLContext legacyOnlyHost freshInstance World.empty 1 4 3).world.swapInterval = none := by
  decide

/-- C6, amended: after an `InitGLContext` run that returns normally, if
`WGL_ARB_create_context` is advertised exactly one swap-interval call was issued,
with argument 0, and when the target context was created that context is the
stored rendering context, is current, and its swap interval is 0; if the
extension is not advertised no swap-interval call was issued and the swap
interval is what it was before the call. -/
theorem C6_swap_interval_by_path (P : Platform) (self : Instance) (W : World) (hWnd : Handle)
    (MajorVersion MinorVersion : Int)
    (hok : (InitGLContext P self W hWnd MajorVersion MinorVersion).error = none) :
    let r := InitGLContext P self W hWnd MajorVersion MinorVersion
    (P.wglewIsSupported "WGL_ARB_create_context" = 1 →
      (issued W r.world).filter Call.isSwapIntervalCall = [Call.wglSwapIntervalEXT 0] ∧
      (P.wglCreateContextAttribsARB (P.GetDC hWnd) 0
          (contextAttribs P MajorVersion MinorVersion) = true →
        r.self.m_Context ≠ 0 ∧
        r.world.current = some (P.GetDC hWnd, r.self.m_Context) ∧
        r.world.swapInterval = some (r.self.m_Context, 0))) ∧
    (P.wglewIsSupported "WGL_ARB_create_context" ≠ 1 →
      (issued W r.world).filter Call.isSwapIntervalCall = [] ∧
      r.world.swapInterval = W.swapInterval) := by
  intro r
  simp only [r, InitGLContext] at hok ⊢
  split_ifs at hok ⊢ with h1 h2 h3 h4
  · simp [LOG_ERROR_AND_THROW] at hok
  · simp [LOG_ERROR_AND_THROW] at hok
  · simp [LOG_ERROR_AND_THROW] at hok
  · cases hL : P.wglCreateContext (P.GetDC hWnd) <;>
    cases hA : P.wglCreateContextAttribsARB (P.GetDC hWnd) 0
        (contextAttribs P MajorVersion MinorVersion) <;>
      simp [wglCreateContext, hL, hA, h4, wglMakeCurrent, World.log, issued, query_live,
        query_current, query_trace, query_swapInterval, Call.isSwapIntervalCall,
        featureCalls_no_swap, freshHandle_ne_zero, wglCreateContextAttribsARB,
        wglDeleteContext, wglSwapIntervalEXT, freshHandle_not_mem, freshHandle_ne_last,
        last_ne_freshHandle, freshHandle_append_not_mem]
  · cases hL : P.wglCreateContext (P.GetDC hWnd) <;>
      simp [wglCreateContext, hL, h4, wglMakeCurrent, World.log, issued, query_live,
        query_current, query_trace, query_swapInterval, Call.isSwapIntervalCall,
        featureCalls_no_swap, freshHandle_ne_zero]

/-- C6, amended, at a concrete input (scenario S1): version 4.3 on the host with
the extension; the swap interval of the target context, handle 2, is 0. -/
theorem C6_swap_interval_by_path_witness :
    (InitGLContext coreProfileHost freshInstance World.empty 1 4 3).world.swapInterval
      = some ((InitGLContext coreProfileHost freshInstance World.empty 1 4 3).self.m_Context, 0) ∧
    (InitGLContext coreProfileHost freshInstance World.empty 1 4 3).self.m_Context = 2 :=
  have h := C6_swap_interval_by_path coreProfileHost freshInstance World.empty 1 4 3 (by decide)
  ⟨((h.1 (by decide)).2 (by decide)).2.2, by decide⟩

/-- C7, evaluated where the code departs from it: on the host that advertises
the extension but creates no context for version 9.9, `InitGLContext` returns
normally on a pre-init instance; two context-creation calls were issued, one
context (handle 1) was created, none of the contexts created is still alive,
the stored rendering context is null and no context is current. -/
theorem C7_no_context_after_normal_return :
    freshInstance.PreInit ∧
    (InitGLContext coreProfileHost freshInstance World.empty 1 9 9).error = none ∧
    createdContexts
        (issued World.empty (InitGLContext coreProfileHost freshInstance World.empty 1 9 9).world)
      = [1] ∧
    (createdContexts
        (issued World.empty
          (InitGLContext coreProfileHost freshInstance World.empty 1 9 9).world)).filter
        (fun h => decide
          (h ∈ (InitGLContext coreProfileHost freshInstance World.empty 1 9 9).world.live))
      = [] ∧
    (InitGLContext coreProfileHost freshInstance World.empty 1 9 9).self.m_Context = 0 ∧
    (InitGLContext coreProfileHost freshInstance World.empty 1 9 9).world.current = none := by
  decide

/-- C8: destroying an instance whose rendering context is non-null issues
exactly `wglMakeCurrent( m_WindowHandleToDeviceContext, 0 )` followed by
`wglDeleteContext( m_Context )` and nothing else, after which no context is
current and the stored context is not alive; destroying an instance whose
rendering context is null issues no call and leaves the world as it was. No
call releasing the window or its device context is among them. -/
theorem C8_teardown (self : Instance) (W : World) :
    (self.m_Context ≠ 0 →
      issued W (destructor self W)
        = [Call.wglMakeCurrent self.m_WindowHandleToDeviceContext 0,
           Call.wglDeleteContext self.m_Context] ∧
      (destructor self W).current = none ∧
      self.m_Context ∉ (destructor self W).live) ∧
    (self.m_Context = 0 →
      issued W (destructor self W) = [] ∧ destructor self W = W) := by
  constructor
  · intro h
    by_cases hm : self.m_Context ∈ W.live <;>
      simp [destructor, h, hm, wglMakeCurrent, wglDeleteContext, World.log, issued]
  · intro h
    simp [destructor, h, issued]

/-- C9: on a pre-init instance `InitGLContext` raises "Invalid Pixel Format" if
and only if `ChoosePixelFormat` returns 0 for the descriptor (size 40, version 1,
double-buffered, OpenGL-capable, window-drawable, RGBA, 32-bit colour, 32-bit
depth, main layer). In that case the calls issued are exactly `GetClientRect`,
`GetDC`, `ChoosePixelFormat` and the error log: no pixel-format bind, no context
creation, no make-current; the rendering context stays null; and the destructor
then issues no call. -/
theorem C9_invalid_pixel_format (P : Platform) (self : Instance) (W : World) (hWnd : Handle)
    (MajorVersion MinorVersion : Int) (hpre : self.PreInit) :
    let r := InitGLContext P self W hWnd MajorVersion MinorVersion
    let pfd : PIXELFORMATDESCRIPTOR :=
      { nSize := 40, nVersion := 1,
        dwFlags := PFD_DOUBLEBUFFER ||| PFD_SUPPORT_OPENGL ||| PFD_DRAW_TO_WINDOW,
        iPixelType := PFD_TYPE_RGBA, cColorBits := 32, cDepthBits := 32,
        iLayerType := PFD_MAIN_PLANE }
    (r.error = some "Invalid Pixel Format" ↔ P.ChoosePixelFormat (P.GetDC hWnd) pfd = 0) ∧
    (r.error = some "Invalid Pixel Format" →
      issued W r.world
        = [Call.GetClientRect hWnd, Call.GetDC hWnd,
           Call.ChoosePixelFormat (P.GetDC hWnd) pfd,
           Call.LOG_ERROR_MESSAGE "Invalid Pixel Format"] ∧
      r.world.live = W.live ∧ r.world.current = W.current ∧
      r.self.m_Context = 0 ∧
      issued r.world (destructor r.self r.world) = [] ∧
      destructor r.self r.world = r.world) := by
  intro r pfd
  have hp : requestedPixelFormat = pfd := rfl
  unfold Instance.PreInit at hpre
  simp only [r, InitGLContext, hp]
  split_ifs with h1 h2 h3 h4
  · simp [LOG_ERROR_AND_THROW, destructor, hpre, World.log, issued, h1]
  · simp [LOG_ERROR_AND_THROW, h1]
  · simp [LOG_ERROR_AND_THROW, h1]
  · simp [h1]
  · simp [h1]

/-- C9 at a concrete input (scenario S3): the host without a matching pixel
format raises "Invalid Pixel Format" and issues four calls, none of them a
context call. -/
theorem C9_invalid_pixel_format_witness :
    (InitGLContext noPixelFormatHost freshInstance World.empty 1 4 3).error
      = some "Invalid Pixel Format" ∧
    (issued World.empty
        (InitGLContext noPixelFormatHost freshInstance World.empty 1 4 3).world).length = 4 ∧
    (InitGLContext noPixelFormatHost freshInstance World.empty 1 4 3).self.m_Context = 0 :=
  have h := C9_invalid_pixel_format noPixelFormatHost freshInstance World.empty 1 4 3
    (by decide)
  have he : (InitGLContext noPixelFormatHost freshInstance World.empty 1 4 3).error
      = some "Invalid Pixel Format" := h.1.mpr (by decide)
  ⟨he, by rw [(h.2 he).1]; rfl, (h.2 he).2.2.2.1⟩

/-- C10, evaluated where the code departs from it: pixel-format selection and
binding succeed, the legacy context is created and current when the loader
runs, the extension is advertised, and `wglCreateContextAttribsARB` returns null
for the requested version 9.9. The failed creation raises no error:
`InitGLContext` returns normally, and it does so with a null rendering
context. -/
theorem C10_normal_return_with_null_context :
    coreProfileHost.ChoosePixelFormat (coreProfileHost.GetDC 1) requestedPixelFormat ≠ 0 ∧
    coreProfileHost.SetPixelFormat (coreProfileHost.GetDC 1) 7 requestedPixelFormat = true ∧
    Call.wglCreateContextAttribsARB 101 0 (contextAttribs coreProfileHost 9 9) 0
      ∈ issued World.empty
          (InitGLContext coreProfileHost freshInstance World.empty 1 9 9).world ∧
    (InitGLContext coreProfileHost freshInstance World.empty 1 9 9).error = none ∧
    (InitGLContext coreProfileHost freshInstance World.empty 1 9 9).self.m_Context = 0 := by
  decide

/-! ## Further properties of the code -/

/-- When pixel-format selection, binding and loader initialisation succeed, the
extension is advertised and the target context is created, `InitGLContext`
returns normally and issues exactly these context calls: create the legacy
context, make it current, create the target context, unbind, delete the legacy
context, make the target context current. The target context is the stored
rendering context, non-null, alive and current; the legacy context, if one was
created, is no longer alive. -/
theorem target_context_replaces_legacy (P : Platform) (self : Instance) (W : World)
    (hWnd : Handle) (MajorVersion MinorVersion : Int)
    (hfmt : P.ChoosePixelFormat (P.GetDC hWnd) requestedPixelFormat ≠ 0)
    (hset : P.SetPixelFormat (P.GetDC hWnd)
      (P.ChoosePixelFormat (P.GetDC hWnd) requestedPixelFormat) requestedPixelFormat = true)
    (hglew : P.glewInit = GLEW_OK)
    (hext : P.wglewIsSupported "WGL_ARB_create_context" = 1)
    (hattr : P.wglCreateContextAttribsARB (P.GetDC hWnd) 0
      (contextAttribs P MajorVersion MinorVersion) = true) :
    let r := InitGLContext P self W hWnd MajorVersion MinorVersion
    r.error = none ∧
    r.self.m_Context ≠ 0 ∧
    r.self.m_Context ∈ r.world.live ∧
    r.world.current = some (P.GetDC hWnd, r.self.m_Context) ∧
    ∃ tempContext : Handle,
      (issued W r.world).filter Call.isContextCall
        = [Call.wglCreateContext (P.GetDC hWnd) tempContext,
           Call.wglMakeCurrent (P.GetDC hWnd) tempContext,
           Call.wglCreateContextAttribsARB (P.GetDC hWnd) 0
             (contextAttribs P MajorVersion MinorVersion) r.self.m_Context,
           Call.wglMakeCurrent 0 0,
           Call.wglDeleteContext tempContext,
           Call.wglMakeCurrent (P.GetDC hWnd) r.self.m_Context] ∧
      (tempContext ≠ 0 → tempContext ∉ r.world.live) := by
  intro r
  simp only [r, InitGLContext, if_neg hfmt, hset, hglew, hext]
  cases hL : P.wglCreateContext (P.GetDC hWnd)
  · refine ⟨?_, ?_, ?_, ?_, 0, ?_, ?_⟩ <;>
      simp [wglCreateContext, hL, wglMakeCurrent, World.log, issued, query_live, query_current,
        query_trace, Call.isContextCall, featureCalls_no_context, freshHandle_ne_zero,
        wglCreateContextAttribsARB, hattr, wglDeleteContext, wglSwapIntervalEXT,
        freshHandle_not_mem, freshHandle_ne_last, last_ne_freshHandle,
        freshHandle_append_not_mem]
  · refine ⟨?_, ?_, ?_, ?_, freshHandle W.live, ?_, ?_⟩ <;>
      simp [wglCreateContext, hL, wglMakeCurrent, World.log, issued, query_live, query_current,
        query_trace, Call.isContextCall, featureCalls_no_context, freshHandle_ne_zero,
        wglCreateContextAttribsARB, hattr, wglDeleteContext, wglSwapIntervalEXT,
        freshHandle_not_mem, freshHandle_ne_last, last_ne_freshHandle,
        freshHandle_append_not_mem]

/-- Scenario S1: version 4.3 on the host with the extension; the target context
is handle 2 and is the only context alive. -/
theorem target_context_replaces_legacy_witness :
    (InitGLContext coreProfileHost freshInstance World.empty 1 4 3).self.m_Context
      ∈ (InitGLContext coreProfileHost freshInstance World.empty 1 4 3).world.live ∧
    (InitGLContext coreProfileHost freshInstance World.empty 1 4 3).world.live = [2] :=
  have h := target_context_replaces_legacy coreProfileHost freshInstance World.empty 1 4 3
    (by decide) (by decide) (by decide) (by decide) (by decide)
  ⟨h.2.2.1, by decide⟩

/-- Single-context invariant on the runs where the context that init stores was
created: if `InitGLContext` returns normally and the attributed creation
succeeded (extension advertised) or the legacy creation succeeded (extension
not advertised), then the stored rendering context is non-null, it is current
on the device-context handle, and of the contexts created during the call it is
the only one still alive. -/
theorem single_context_when_created (P : Platform) (self : Instance) (W : World)
    (hWnd : Handle) (MajorVersion MinorVersion : Int)
    (hok : (InitGLContext P self W hWnd MajorVersion MinorVersion).error = none)
    (hcreated : if P.wglewIsSupported "WGL_ARB_create_context" = 1
      then P.wglCreateContextAttribsARB (P.GetDC hWnd) 0
        (contextAttribs P MajorVersion MinorVersion) = true
      else P.wglCreateContext (P.GetDC hWnd) = true) :
    let r := InitGLContext P self W hWnd MajorVersion MinorVersion
    r.self.m_Context ≠ 0 ∧
    r.world.current = some (P.GetDC hWnd, r.self.m_Context) ∧
    (createdContexts (issued W r.world)).filter (fun h => decide (h ∈ r.world.live))
      = [r.self.m_Context] := by
  intro r
  simp only [r, InitGLContext] at hok ⊢
  split_ifs at hok ⊢ with h1 h2 h3 h4
  · simp [LOG_ERROR_AND_THROW] at hok
  · simp [LOG_ERROR_AND_THROW] at hok
  · simp [LOG_ERROR_AND_THROW] at hok
  · rw [if_pos h4] at hcreated
    cases hL : P.wglCreateContext (P.GetDC hWnd) <;>
      simp [wglCreateContext, hL, wglMakeCurrent, World.log, issued, query_live, query_current,
        query_trace, freshHandle_ne_zero, wglCreateContextAttribsARB, hcreated,
        wglDeleteContext, wglSwapIntervalEXT, createdContexts, featureCalls_created,
        Call.created?, freshHandle_not_mem, freshHandle_ne_last, last_ne_freshHandle,
        freshHandle_append_not_mem]
  · rw [if_neg h4] at hcreated
    simp [wglCreateContext, hcreated, wglMakeCurrent, World.log, issued, query_live,
      query_current, query_trace, freshHandle_ne_zero, createdContexts, featureCalls_created,
      Call.created?, freshHandle_not_mem]

/-- The invariant at a concrete input: version 4.3 on the host lacking the
extension; the legacy context, handle 1, is stored and current. -/
theorem single_context_when_created_witness :
    (InitGLContext legacyOnlyHost freshInstance World.empty 1 4 3).world.current
      = some (legacyOnlyHost.GetDC 1,
          (InitGLContext legacyOnlyHost freshInstance World.empty 1 4 3).self.m_Context) ∧
    (InitGLContext legacyOnlyHost freshInstance World.empty 1 4 3).self.m_Context = 1 :=
  have h := single_context_when_created legacyOnlyHost freshInstance World.empty 1 4 3
    (by decide) (by decide)
  ⟨h.2.1, by decide⟩

/-- The errors of `InitGLContext`, each with the condition that raises it, and
the members it always writes: "Invalid Pixel Format" iff `ChoosePixelFormat`
returns 0; "Failed to set Pixel Format" iff a format was chosen and
`SetPixelFormat` refuses it; "Failed to initialize GLEW" iff both succeed and
`glewInit` does not return `GLEW_OK`; normal return otherwise. On every path the
backbuffer size is the client-rectangle size and the device-context handle is
the one `GetDC` returned. -/
theorem init_error_cases (P : Platform) (self : Instance) (W : World) (hWnd : Handle)
    (MajorVersion MinorVersion : Int) :
    let r := InitGLContext P self W hWnd MajorVersion MinorVersion
    let fmt := P.ChoosePixelFormat (P.GetDC hWnd) requestedPixelFormat
    let bound := P.SetPixelFormat (P.GetDC hWnd) fmt requestedPixelFormat
    (r.error = some "Invalid Pixel Format" ↔ fmt = 0) ∧
    (r.error = some "Failed to set Pixel Format" ↔ fmt ≠ 0 ∧ bound = false) ∧
    (r.error = some "Failed to initialize GLEW"
      ↔ fmt ≠ 0 ∧ bound = true ∧ P.glewInit ≠ GLEW_OK) ∧
    (r.error = none ↔ fmt ≠ 0 ∧ bound = true ∧ P.glewInit = GLEW_OK) ∧
    r.self.m_BackBufferWidth
      = wrapInt32 ((P.GetClientRect hWnd).right - (P.GetClientRect hWnd).left) ∧
    r.self.m_BackBufferHeight
      = wrapInt32 ((P.GetClientRect hWnd).bottom - (P.GetClientRect hWnd).top) ∧
    r.self.m_WindowHandleToDeviceContext = P.GetDC hWnd := by
  intro r fmt bound
  simp only [r, fmt, bound, InitGLContext]
  split_ifs with h1 h2 h3 h4
  · simp [LOG_ERROR_AND_THROW, h1]
  · simp at h2
    simp [LOG_ERROR_AND_THROW, h1, h2]
  · simp at h2
    have h3b : ¬ P.glewInit = GLEW_OK := fun h => h3 h.symm
    simp [LOG_ERROR_AND_THROW, h1, h2, h3b]
  · simp at h2 h3
    cases hA : P.wglCreateContextAttribsARB (P.GetDC hWnd) 0
        (contextAttribs P MajorVersion MinorVersion) <;>
      simp [h1, h2, ← h3, wglCreateContextAttribsARB, hA]
  · simp at h2 h3
    simp [h1, h2, ← h3]

/-- Present: `SwapBuffers` issues exactly one `SwapBuffers` call on the stored
device-context handle and changes neither the live contexts, the current
context nor the swap interval. -/
theorem swapBuffers_issues_one_call (self : Instance) (W : World) :
    issued W (SwapBuffers self W) = [Call.SwapBuffers self.m_WindowHandleToDeviceContext] ∧
    (SwapBuffers self W).live = W.live ∧
    (SwapBuffers self W).current = W.current ∧
    (SwapBuffers self W).swapInterval = W.swapInterval := by
  simp [SwapBuffers, World.log, issued]

/-- What the code does on every run in which pixel-format selection, binding and
loader initialisation succeed, the extension is advertised and
`wglCreateContextAttribsARB` returns null: `InitGLContext` returns normally, the
stored rendering context is null, no context is current, and none of the
contexts created during the call is still alive. -/
theorem target_failure_leaves_no_context (P : Platform) (self : Instance) (W : World)
    (hWnd : Handle) (MajorVersion MinorVersion : Int)
    (hfmt : P.ChoosePixelFormat (P.GetDC hWnd) requestedPixelFormat ≠ 0)
    (hset : P.SetPixelFormat (P.GetDC hWnd)
      (P.ChoosePixelFormat (P.GetDC hWnd) requestedPixelFormat) requestedPixelFormat = true)
    (hglew : P.glewInit = GLEW_OK)
    (hext : P.wglewIsSupported "WGL_ARB_create_context" = 1)
    (hattr : P.wglCreateContextAttribsARB (P.GetDC hWnd) 0
      (contextAttribs P MajorVersion MinorVersion) = false) :
    let r := InitGLContext P self W hWnd MajorVersion MinorVersion
    r.error = none ∧
    r.self.m_Context = 0 ∧
    r.world.current = none ∧
    (createdContexts (issued W r.world)).filter (fun h => decide (h ∈ r.world.live)) = [] := by
  intro r
  simp only [r, InitGLContext, if_neg hfmt, hset, hglew, hext]
  cases hL : P.wglCreateContext (P.GetDC hWnd) <;>
    simp [wglCreateContext, hL, wglMakeCurrent, World.log, issued, query_live, query_current,
      query_trace, freshHandle_ne_zero, wglCreateContextAttribsARB, hattr,
      wglDeleteContext, wglSwapIntervalEXT, createdContexts, featureCalls_created,
      Call.created?, freshHandle_not_mem]

/-- The same at a concrete input: version 9.9 requested on the host with the
extension. -/
theorem target_failure_leaves_no_context_witness :
    (InitGLContext coreProfileHost freshInstance World.empty 1 9 9).error = none ∧
    (InitGLContext coreProfileHost freshInstance World.empty 1 9 9).self.m_Context = 0 ∧
    (InitGLContext coreProfileHost freshInstance World.empty 1 9 9).world.current = none :=
  have h := target_failure_leaves_no_context coreProfileHost freshInstance World.empty 1 9 9
    (by decide) (by decide) (by decide) (by decide) (by decide)
  ⟨h.1, h.2.1, h.2.2.1⟩

end UnityGraphicsGLCore
